/-
  Verification of the Replikas server-side domain/data layer.

  Shallow embedding of `src/model/Utilitaire.ts` (dateDiff, addCookie,
  session-token resolution, the Article data-access object) and of the
  session-resolution module (getAccountBySession).  JavaScript numbers that
  only ever hold integral values (millisecond timestamps, ids, prices) are
  modelled as Int; JavaScript `%` is Int.tmod (truncated, sign of dividend)
  and `Math.floor(a / b)` on integral values is Int.fdiv.  Database tables
  are lists of rows; SELECT without ORDER BY returns rows in table order.
-/
import Mathlib

namespace Replikas

/-! ## dateDiff (Utilitaire.ts lines 17-42)

    function dateDiff(date1, date2): {day, hour, min, sec}
    Timestamps (Date.getTime()) are integral millisecond counts. -/

structure DateDiff where
  day : Int
  hour : Int
  min : Int
  sec : Int
deriving DecidableEq

/-- Translation of `dateDiff`: successive extraction of seconds, minutes,
hours, days from the millisecond difference `date1.getTime() - date2.getTime()`.
JS `%` is truncated remainder (Int.tmod), `Math.floor(x / n)` is Int.fdiv. -/
def dateDiff (date1 date2 : Int) : DateDiff :=
  let t0 := (date1 - date2).fdiv 1000
  let s := t0.tmod 60
  let t1 := (t0 - s).fdiv 60
  let m := t1.tmod 60
  let t2 := (t1 - m).fdiv 60
  let h := t2.tmod 24
  let t3 := (t2 - h).fdiv 24
  { day := t3, hour := h, min := m, sec := s }

/-! ## addCookie (Utilitaire.ts lines 49-64)

    Headers are modelled as a list of (header-name, value) pairs;
    `headers.append` appends at the end.  The cookie argument's optional
    fields are tested by JS truthiness: an absent field, 0, false and ""
    are all falsy. -/

structure Cookie where
  name : String
  value : String
  maxAge : Option Int
  secure : Option Bool
  path : Option String
deriving DecidableEq

/-- JS truthiness of `cookie.maxAge` (a number or undefined). -/
def truthyNum : Option Int → Bool
  | some n => n != 0
  | none => false

/-- JS truthiness of `cookie.secure` (a boolean or undefined). -/
def truthyBool : Option Bool → Bool
  | some b => b
  | none => false

/-- JS truthyness of `cookie.path` (a string or undefined). -/
def truthyStr : Option String → Bool
  | some s => s != ""
  | none => false

/-- The `Set-Cookie` value built by `addCookie`:
  val  = name=value;
  val += cookie.maxAge ? " Max-Age=<n>;" : ""
  val += cookie.secure ? " Secure;" : ""
  val += cookie.path   ? " Path=<p>;" : "" -/
def cookieValue (c : Cookie) : String :=
  let val := c.name ++ "=" ++ c.value ++ ";"
  let val := val ++ (if truthyNum c.maxAge then " Max-Age=" ++ toString (c.maxAge.getD 0) ++ ";" else "")
  let val := val ++ (if truthyBool c.secure then " Secure;" else "")
  let val := val ++ (if truthyStr c.path then " Path=" ++ c.path.getD "" ++ ";" else "")
  val

/-- `addCookie(headers, cookie)`: appends one Set-Cookie header. -/
def addCookie (headers : List (String × String)) (c : Cookie) : List (String × String) :=
  headers ++ [("Set-Cookie", cookieValue c)]

/-! Spec-side fragment descriptions (from the spec's wording in section 4.2),
    used to state the format claim about `addCookie`. -/

/-- Spec-side: the optional Max-Age fragment. -/
def maxAgeFragment : Option Int → String
  | some n => if n != 0 then " Max-Age=" ++ toString n ++ ";" else ""
  | none => ""

/-- Spec-side: the optional Secure fragment. -/
def secureFragment : Option Bool → String
  | some b => if b then " Secure;" else ""
  | none => ""

/-- Spec-side: the optional Path fragment. -/
def pathFragment : Option String → String
  | some p => if p != "" then " Path=" ++ p ++ ";" else ""
  | none => ""

/-! ## Session resolution (part_000 lines 74-83; Utilitaire.ts lines 75-84)

    getAccountBySession (and the identical extraction in getBuyerBySession)
    reads the `cookie` header, normalizes it to end with a separator, and
    runs the regex /token=([^;]\x2a);/ on it.  We model the header as an
    Option String (null when absent) and the observable outcome as: the
    extracted token handed to Account.getBySession, a thrown
    SessionTokenInvalideError, or a thrown TypeError (reading .length of a
    null match result). -/

inductive SessionResolution where
  /-- the extracted token, passed on to Account.getBySession / Buyer.getBySession -/
  | ok (token : String)
  /-- `throw new SessionTokenInvalideError()` -/
  | sessionTokenInvalid
  /-- TypeError: `token.length` read on the null returned by String.match -/
  | typeError
deriving DecidableEq

/-- The characters of the literal part `token=` of the regex. -/
def tokenEq : List Char := ['t', 'o', 'k', 'e', 'n', '=']

/-- Regex fragment ([^;]\x2a); at the current position: the characters before
the next semicolon, or failure when no semicolon follows. -/
def takeUntilSemi : List Char → Option (List Char)
  | [] => none
  | c :: rest => if c = ';' then some [] else (takeUntilSemi rest).map (fun l => c :: l)

/-- Leftmost match of /token=([^;]\x2a);/ : at each start position try the
literal `token=`, then capture up to a mandatory semicolon; on failure slide
one position to the right.  Returns capture group 1. -/
def findTokenCapture : List Char → Option (List Char)
  | [] => none
  | c :: rest =>
    if tokenEq.isPrefixOf (c :: rest) then
      match takeUntilSemi ((c :: rest).drop 6) with
      | some cap => some cap
      | none => findTokenCapture rest
    else findTokenCapture rest

/-- Translation of `getAccountBySession` (part_000) / the identical cookie
handling of `getBuyerBySession` (Utilitaire.ts):

    const cookies = headers.get('cookie');
    if (cookies) \x7b
      const token = (cookies.endsWith(';') ? cookies : cookies + ';')
        .match(/token=([^;]\x2a);/);
      if (token.length > 0) return Account.getBySession(token[1]);
    \x7d
    throw new SessionTokenInvalideError();

When the regex does not match, `cookies.match` returns null and reading
`token.length` throws a TypeError. When it matches, the returned array
[full, group1] has length 2 > 0 and token[1] is the capture. -/
def getAccountBySession (cookieHeader : Option String) : SessionResolution :=
  match cookieHeader with
  | none => .sessionTokenInvalid
  | some cookies =>
    if cookies.data = [] then .sessionTokenInvalid
    else
      let normalized :=
        if cookies.data.getLast? = some ';' then cookies.data else cookies.data ++ [';']
      match findTokenCapture normalized with
      | some cap => .ok (String.mk cap)
      | none => .typeError

/-! ## Database model

    Tables are lists of rows in insertion order.  A SELECT with a WHERE
    clause and no ORDER BY returns the matching rows in table order.
    `artSeq` models the serial primary-key generator behind
    INSERT INTO article ... RETURNING. -/

structure ArticleRow where
  art_id : Int
  art_name : String
  art_description : String
  art_price : Int
  art_min_bidding : Int
  art_auction_start : Int
  art_auction_end : Int
  m_id : Int
  c_id : Int
deriving DecidableEq

structure DBState where
  /-- movie(m_id, m_title) -/
  movie : List (Int × String)
  /-- article rows -/
  article : List ArticleRow
  /-- article_image(art_id, img_path) -/
  article_image : List (Int × String)
  /-- bid rows, keyed by their art_id (the only column the code reads) -/
  bid : List Int
  /-- next value of the article serial id -/
  artSeq : Int
deriving DecidableEq

/-- The Article entity (class Article, Utilitaire.ts lines 94-104). -/
structure Article where
  id : Int
  name : String
  description : String
  price : Int
  min_bidding : Int
  auction_start : Int
  auction_end : Int
  img_paths : List String
  tmdb_movie_id : Int
  selling_company_id : Int
deriving DecidableEq

/-- Article.getFromResult (lines 114-134): copies the row's columns into an
Article, then fetches `SELECT \x2a FROM article_image WHERE art_id = id` and
pushes each img_path in row order. -/
def Article.getFromResult (db : DBState) (r : ArticleRow) : Article :=
  { id := r.art_id, name := r.art_name, description := r.art_description,
    price := r.art_price, min_bidding := r.art_min_bidding,
    auction_start := r.art_auction_start, auction_end := r.art_auction_end,
    img_paths := (db.article_image.filter fun i => i.1 = r.art_id).map Prod.snd,
    tmdb_movie_id := r.m_id, selling_company_id := r.c_id }

inductive ArticleError where
  /-- ArticleInexistantError(id) -/
  | articleInexistant (id : Int)
deriving DecidableEq

/-- Article.get (lines 142-150): SELECT by art_id; zero rows throw
ArticleInexistantError, otherwise the first row is mapped. -/
def Article.get (db : DBState) (id : Int) : Except ArticleError Article :=
  match db.article.filter (fun r => r.art_id = id) with
  | [] => .error (.articleInexistant id)
  | r :: _ => .ok (Article.getFromResult db r)

/-- Article.getAll (lines 201-211): SELECT \x2a FROM article, each row mapped
through getFromResult. -/
def Article.getAll (db : DBState) : List Article :=
  db.article.map (Article.getFromResult db)

structure SearchParams where
  limit : Nat
  offset : Nat
deriving DecidableEq

/-- Article.getBySearch (lines 219-257).  The ranked full-text/similarity
query (websearch_to_tsquery, ts_rank, SIMILARITY) is a capability of the
external database engine, abstracted as `engine`; the code's own logic is
the `@all` sentinel check that delegates to getAll before any query runs. -/
def Article.getBySearch (db : DBState)
    (engine : String → SearchParams → List ArticleRow)
    (search : String) (params : SearchParams) : List Article :=
  if search = "@all" then Article.getAll db
  else (engine search params).map (Article.getFromResult db)

/-- Number of bid rows for an article id. -/
def bidCount (db : DBState) (aid : Int) : Nat :=
  (db.bid.filter fun b => b = aid).length

/-- GROUP BY art_id over the bid table: distinct ids, first occurrences kept
in order. -/
def distinctFirst : List Int → List Int
  | [] => []
  | a :: rest => a :: (distinctFirst rest).filter (fun b => b ≠ a)

/-- The inner subquery of mostBids (lines 270-276):
SELECT art_id FROM bid GROUP BY art_id ORDER BY count(art_id) DESC
LIMIT (params.limit or 8 when falsy) OFFSET (params.offset or 0).
Ties keep group order (stable sort); OFFSET skips, then LIMIT takes. -/
def mostBidsInnerIds (db : DBState) (p : SearchParams) : List Int :=
  let sorted := List.insertionSort
    (fun a b => bidCount db b ≤ bidCount db a) (distinctFirst db.bid)
  (sorted.drop p.offset).take (if p.limit = 0 then 8 else p.limit)

/-- Article.mostBids (lines 263-282): the outer query
SELECT \x2a FROM article WHERE art_id IN (inner subquery) has no ORDER BY,
so it yields the matching articles in table order. -/
def Article.mostBids (db : DBState) (p : SearchParams) : List Article :=
  (db.article.filter fun r => r.art_id ∈ mostBidsInnerIds db p).map
    (Article.getFromResult db)

/-- INSERT INTO movie (m_id, m_title) VALUES ... ON CONFLICT DO NOTHING
(m_id is the primary key). -/
def insertMovieIgnore (db : DBState) (mid : Int) (title : String) : DBState :=
  if db.movie.any (fun m => m.1 = mid) then db
  else { db with movie := db.movie ++ [(mid, title)] }

/-- INSERT INTO article ... RETURNING \x2a, with the serial id generator. -/
def insertArticleRow (db : DBState) (name description : String)
    (price min_bidding auction_start auction_end m_id c_id : Int) :
    DBState × ArticleRow :=
  let row : ArticleRow :=
    { art_id := db.artSeq, art_name := name, art_description := description,
      art_price := price, art_min_bidding := min_bidding,
      art_auction_start := auction_start, art_auction_end := auction_end,
      m_id := m_id, c_id := c_id }
  ({ db with article := db.article ++ [row], artSeq := db.artSeq + 1 }, row)

/-- INSERT INTO article_image (art_id, img_path) VALUES ... -/
def insertImage (db : DBState) (aid : Int) (path : String) : DBState :=
  { db with article_image := db.article_image ++ [(aid, path)] }

/-- The per-image insert loop of Article.create, statements numbered from k.
`fails` is the failure oracle: `fails n` means the n-th SQL statement issued
by this call raises a database error.  On an error the statements already
executed stay committed (see Article.create below) and the error carries the
committed state. -/
def insertImagesFrom (fails : Nat → Bool) (aid : Int) (k : Nat) :
    DBState → List String → Except DBState DBState
  | db, [] => .ok db
  | db, p :: ps =>
    if fails k then .error db
    else insertImagesFrom fails aid (k + 1) (insertImage db aid p) ps

/-- Article.create (lines 165-195).  The source opens a transaction with
database.begin(async (sql) => ...) but never uses the transaction handle
`sql` it receives: the movie upsert, the article insert and every image
insert run through the pooled `database` handle, i.e. on connections outside
the open transaction, each auto-committed on its own.  The model therefore
applies every statement directly to the committed state; when the oracle
`fails` makes statement n raise, begin rolls back its (empty) transaction
and rethrows, and the statements already executed remain committed — the
.error value carries that committed state.  `movieTitle` is the result of
the preceding TMDB.getMovie call (external provider, assumed successful
here).  Statement numbering: 0 = movie upsert, 1 = article insert,
2+i = insert of image i. -/
def Article.create (db : DBState) (name description : String)
    (price min_bidding auction_start auction_end : Int) (img_paths : List String)
    (tmdb_movie_id selling_company_id : Int) (movieTitle : String)
    (fails : Nat → Bool) : Except DBState (DBState × Article) :=
  if fails 0 then .error db
  else
    let db1 := insertMovieIgnore db tmdb_movie_id movieTitle
    if fails 1 then .error db1
    else
      let res := insertArticleRow db1 name description price min_bidding
        auction_start auction_end tmdb_movie_id selling_company_id
      match insertImagesFrom fails res.2.art_id 2 res.1 img_paths with
      | .error dbe => .error dbe
      | .ok db3 => .ok (db3, Article.getFromResult db3 res.2)

/-- Article.getPoster (lines 365-375): first image path when some exist,
otherwise TMDB.getMoviePosterURL(movie_id, 'w342') with .catch falling back
to the placeholder.  The external provider is the `fetchPoster` argument;
none models any failure of that request. -/
def Article.getPoster (fetchPoster : Int → String → Option String)
    (a : Article) : String :=
  match a.img_paths with
  | p :: _ => p
  | [] =>
    match fetchPoster a.tmdb_movie_id "w342" with
    | some url => url
    | none => "/img/article/placeholder.jpg"

/-! ## Concrete fixtures used by witnesses and counterexamples -/

/-- An empty database. -/
def db0 : DBState :=
  { movie := [], article := [], article_image := [], bid := [], artSeq := 1 }

/-- Article row fixture with id 1. -/
def row1 : ArticleRow :=
  { art_id := 1, art_name := "A1", art_description := "d1", art_price := 10,
    art_min_bidding := 1, art_auction_start := 0, art_auction_end := 9,
    m_id := 5, c_id := 3 }

/-- Article row fixture with id 2. -/
def row2 : ArticleRow := { row1 with art_id := 2, art_name := "A2" }

/-- Database for the mostBids counterexample: articles 1 and 2 in table
order, one bid on article 1 and two bids on article 2. -/
def db3 : DBState :=
  { movie := [], article := [row1, row2], article_image := [],
    bid := [1, 2, 2], artSeq := 3 }

/-- Database for the Article.get witness: one article (id 1) and three
image rows, two of which belong to article 1. -/
def dbW : DBState :=
  { movie := [(5, "M")], article := [row1],
    article_image := [(1, "a"), (2, "b"), (1, "c")], bid := [], artSeq := 2 }

/-- An always-failing external poster provider. -/
def noPoster : Int → String → Option String := fun _ _ => none

/-- Article fixture with two images. -/
def articleWithImage : Article :=
  { id := 1, name := "n", description := "d", price := 0, min_bidding := 0,
    auction_start := 0, auction_end := 0, img_paths := ["x.jpg", "y.jpg"],
    tmdb_movie_id := 9, selling_company_id := 3 }

/-- Article fixture with no images. -/
def articleNoImage : Article := { articleWithImage with img_paths := [] }

/-! ## Claim theorems -/

/-- C2 (code bug): an absent cookie header fails with SessionTokenInvalid and
"token=abc123;other=x;" yields the token "abc123", as the claim states; but a
cookie header that is present and non-empty yet contains no `token=` entry
does NOT fail with SessionTokenInvalid: `cookies.match` returns null and the
unguarded `token.length` access throws a TypeError instead. -/
theorem claim_C2_session_resolution_eval :
    getAccountBySession (some "token=abc123;other=x;") = .ok "abc123" ∧
    getAccountBySession none = .sessionTokenInvalid ∧
    getAccountBySession (some "other=x;") = .typeError := by decide

/-- C10: the regex /token=([^;]\x2a);/ matches the substring `token=`
anywhere in the header, so "mytoken=evil;" — a header with no standalone
`token` key — still resolves, extracting "evil" from the `mytoken` entry. -/
theorem claim_C10_substring_token_match :
    getAccountBySession (some "mytoken=evil;") = .ok "evil" := by decide

/-- C1 (code bug): Article.create's writes are not atomic.  With an empty
database, when the article-row INSERT (statement 1) raises an error, create
fails — yet the movie upsert executed just before it has already been
committed (it ran on the pooled `database` handle, outside the transaction
opened by database.begin whose `sql` handle is never used), so the database
state has changed even though the call failed. -/
theorem claim_C1_create_not_atomic :
    Article.create db0 "poster" "desc" 10 1 0 9 ["p.jpg"] 42 7 "Movie"
        (fun n => n == 1)
      = .error { db0 with movie := [(42, "Movie")] } ∧
    ({ db0 with movie := [(42, "Movie")] } : DBState) ≠ db0 :=
  ⟨rfl, by decide⟩

/-- Membership in distinctFirst implies membership in the original list. -/
theorem mem_distinctFirst {x : Int} :
    ∀ {l : List Int}, x ∈ distinctFirst l → x ∈ l
  | [], h => by simp [distinctFirst] at h
  | a :: rest, h => by
    simp only [distinctFirst, List.mem_cons] at h
    rcases h with h | h
    · exact h ▸ List.mem_cons_self a rest
    · exact List.mem_cons_of_mem a (mem_distinctFirst (List.mem_filter.mp h).1)

/-- Every id produced by the inner mostBids subquery is the id of some bid
row. -/
theorem mem_mostBidsInnerIds {db : DBState} {p : SearchParams} {aid : Int}
    (h : aid ∈ mostBidsInnerIds db p) : aid ∈ db.bid := by
  simp only [mostBidsInnerIds] at h
  have h1 := List.mem_of_mem_take h
  have h2 := List.mem_of_mem_drop h1
  have h3 := (List.perm_insertionSort _ _).subset h2
  exact mem_distinctFirst h3

/-- C3 counterexample: in a database whose article table holds articles 1
then 2, with one bid on article 1 and two bids on article 2, mostBids with
limit 2 and offset 0 returns the articles in table order [1, 2] — the first
returned article has strictly fewer bids than the second, so the output is
not ordered by descending bid count (the outer SELECT has no ORDER BY). -/
theorem claim_C3_mostBids_counterexample :
    (Article.mostBids db3 ⟨2, 0⟩).map Article.id = [1, 2] ∧
    bidCount db3 1 < bidCount db3 2 := by decide

/-- C3 amended: mostBids returns the articles whose id lies in the window
obtained by grouping bids by article id, sorting by descending bid count
and applying offset and limit (a falsy limit of 0 becomes the default 8);
the articles come back in article-table order — not in bid-count order —
and every returned article has at least one bid. -/
theorem claim_C3_mostBids_amended (db : DBState) (p : SearchParams) :
    ((Article.mostBids db p).map Article.id).Sublist
      (db.article.map ArticleRow.art_id) ∧
    ∀ a ∈ Article.mostBids db p,
      0 < bidCount db a.id ∧ a.id ∈ mostBidsInnerIds db p := by
  constructor
  · have hmap : (Article.mostBids db p).map Article.id
        = (db.article.filter fun r =>
            r.art_id ∈ mostBidsInnerIds db p).map ArticleRow.art_id := by
      simp only [Article.mostBids, List.map_map]
      rfl
    rw [hmap]
    exact (List.filter_sublist _).map _
  · intro a ha
    simp only [Article.mostBids, List.mem_map] at ha
    obtain ⟨r, hr, rfl⟩ := ha
    have hrf := List.mem_filter.mp hr
    have hmem : r.art_id ∈ mostBidsInnerIds db p := by simpa using hrf.2
    have hid : (Article.getFromResult db r).id = r.art_id := rfl
    rw [hid]
    refine ⟨?_, hmem⟩
    have hbid : r.art_id ∈ db.bid := mem_mostBidsInnerIds hmem
    have hpos : 0 < (db.bid.filter fun b => b = r.art_id).length := by
      rw [← List.countP_eq_length_filter]
      exact List.countP_pos_iff.mpr ⟨r.art_id, hbid, by simp⟩
    simpa [bidCount] using hpos

/-- Witness for the amended C3 theorem, at the counterexample database:
article 1 is returned by mostBids, has a bid, and its id is in the inner
window. -/
theorem claim_C3_mostBids_amended_witness :
    0 < bidCount db3 (Article.getFromResult db3 row1).id ∧
    (Article.getFromResult db3 row1).id ∈ mostBidsInnerIds db3 ⟨2, 0⟩ :=
  (claim_C3_mostBids_amended db3 ⟨2, 0⟩).2 (Article.getFromResult db3 row1)
    (by decide)

/-- C5: getBySearch with the sentinel search string "@all" delegates to
getAll before any query parameter is used: for every engine and every pair
of pagination parameter records the result equals getAll, so limit and
offset have no effect. -/
theorem claim_C5_getBySearch_all (db : DBState)
    (engine : String → SearchParams → List ArticleRow) (p q : SearchParams) :
    Article.getBySearch db engine "@all" p = Article.getAll db ∧
    Article.getBySearch db engine "@all" p
      = Article.getBySearch db engine "@all" q :=
  ⟨rfl, rfl⟩

/-- C6: Article.get fails with ArticleInexistantError when no article row
has the requested id, and on success returns an Article whose image-path
list is exactly the img_path column of the article_image rows for that id,
in table order. -/
theorem claim_C6_get_spec (db : DBState) (id : Int) :
    ((∀ r ∈ db.article, r.art_id ≠ id) →
        Article.get db id = .error (.articleInexistant id)) ∧
    (∀ a, Article.get db id = .ok a →
        a.img_paths = (db.article_image.filter fun i => i.1 = id).map Prod.snd) := by
  constructor
  · intro h
    have hnil : db.article.filter (fun r => r.art_id = id) = [] := by
      rw [List.filter_eq_nil_iff]
      intro r hr
      simp [h r hr]
    simp [Article.get, hnil]
  · intro a ha
    cases hf : db.article.filter (fun r => r.art_id = id) with
    | nil => rw [Article.get, hf] at ha; cases ha
    | cons r rest =>
      rw [Article.get, hf] at ha
      have hrid : r.art_id = id := by
        have hrmem : r ∈ db.article.filter (fun r => r.art_id = id) := by
          rw [hf]; exact List.mem_cons_self r rest
        simpa using (List.mem_filter.mp hrmem).2
      cases ha
      simp [Article.getFromResult, hrid]

/-- Witness for C6: in dbW, id 99 does not exist and Article.get fails on
it; id 1 exists and Article.get returns the article whose images are the
two img_path entries of article 1, in order. -/
theorem claim_C6_get_spec_witness :
    Article.get dbW 99 = .error (.articleInexistant 99) ∧
    (Article.getFromResult dbW row1).img_paths
      = (dbW.article_image.filter fun i => i.1 = (1 : Int)).map Prod.snd :=
  ⟨(claim_C6_get_spec dbW 99).1 (by decide),
   (claim_C6_get_spec dbW 1).2 (Article.getFromResult dbW row1) rfl⟩

/-- C7: getPoster returns the first image path when the article has images,
for every external provider (the provider is not consulted); when the image
list is empty and the provider's request fails, it returns the literal
placeholder path instead of propagating the failure. -/
theorem claim_C7_getPoster_spec (a : Article)
    (f g : Int → String → Option String) (p : String) :
    (a.img_paths.head? = some p →
        Article.getPoster f a = p ∧ Article.getPoster g a = p) ∧
    (a.img_paths = [] → f a.tmdb_movie_id "w342" = none →
        Article.getPoster f a = "/img/article/placeholder.jpg") := by
  obtain ⟨i, nm, ds, pr, mb, sa, ea, imgs, tm, sc⟩ := a
  constructor
  · intro hp
    cases imgs with
    | nil => cases hp
    | cons q rest =>
      have : q = p := by simpa using hp
      subst this
      exact ⟨rfl, rfl⟩
  · intro hnil hf
    subst hnil
    simp only [Article.getPoster]
    rw [hf]

/-- Witness for C7: a concrete article with images yields its first image
under the always-failing provider, and a concrete article without images
yields the placeholder. -/
theorem claim_C7_getPoster_spec_witness :
    Article.getPoster noPoster articleWithImage = "x.jpg" ∧
    Article.getPoster noPoster articleNoImage = "/img/article/placeholder.jpg" :=
  ⟨((claim_C7_getPoster_spec articleWithImage noPoster noPoster "x.jpg").1 rfl).1,
   (claim_C7_getPoster_spec articleNoImage noPoster noPoster "x.jpg").2 rfl rfl⟩

/-- C4: for instants A ≥ B, dateDiff's decomposition has hour in 0-23,
min in 0-59, sec in 0-59, and reconstructs the second-level delta:
((day*24 + hour)*60 + min)*60 + sec = floor((A - B)/1000). -/
theorem claim_C4_dateDiff_reconstructs (A B : Int) (h : B ≤ A) :
    (0 ≤ (dateDiff A B).hour ∧ (dateDiff A B).hour < 24) ∧
    (0 ≤ (dateDiff A B).min ∧ (dateDiff A B).min < 60) ∧
    (0 ≤ (dateDiff A B).sec ∧ (dateDiff A B).sec < 60) ∧
    (((dateDiff A B).day * 24 + (dateDiff A B).hour) * 60 + (dateDiff A B).min) * 60
        + (dateDiff A B).sec = (A - B).fdiv 1000 := by
  have hAB : 0 ≤ A - B := by omega
  have h1000 : (0:Int) ≤ 1000 := by omega
  have h60 : (0:Int) ≤ 60 := by omega
  have h24 : (0:Int) ≤ 24 := by omega
  simp only [dateDiff]
  simp only [Int.fdiv_eq_ediv _ h1000, Int.fdiv_eq_ediv _ h60, Int.fdiv_eq_ediv _ h24]
  have ht0 : 0 ≤ (A - B) / 1000 := Int.ediv_nonneg hAB h1000
  simp only [Int.tmod_eq_emod ht0 h60]
  have ht1 : 0 ≤ ((A - B) / 1000 - (A - B) / 1000 % 60) / 60 := by omega
  simp only [Int.tmod_eq_emod ht1 h60]
  have ht2 : 0 ≤ (((A - B) / 1000 - (A - B) / 1000 % 60) / 60
      - ((A - B) / 1000 - (A - B) / 1000 % 60) / 60 % 60) / 60 := by omega
  simp only [Int.tmod_eq_emod ht2 h24]
  omega

/-- Witness for C4 at A = 90061500, B = 0 (1 day, 1 hour, 1 min, 1.5 sec). -/
theorem claim_C4_dateDiff_reconstructs_witness :
    (0 ≤ (dateDiff 90061500 0).hour ∧ (dateDiff 90061500 0).hour < 24) ∧
    (0 ≤ (dateDiff 90061500 0).min ∧ (dateDiff 90061500 0).min < 60) ∧
    (0 ≤ (dateDiff 90061500 0).sec ∧ (dateDiff 90061500 0).sec < 60) ∧
    (((dateDiff 90061500 0).day * 24 + (dateDiff 90061500 0).hour) * 60
        + (dateDiff 90061500 0).min) * 60
        + (dateDiff 90061500 0).sec = (90061500 - 0 : Int).fdiv 1000 :=
  claim_C4_dateDiff_reconstructs 90061500 0 (by omega)

/-- C8: addCookie appends exactly one Set-Cookie value of the shape
name=value; then optional Max-Age, Secure, Path fragments in that fixed
order; an absent field contributes no fragment; a cookie with only name
and value yields exactly "name=value;". -/
theorem claim_C8_addCookie_format (hs : List (String × String)) (n v : String)
    (ma : Option Int) (se : Option Bool) (pa : Option String) :
    (addCookie hs ⟨n, v, ma, se, pa⟩ =
       hs ++ [("Set-Cookie",
         n ++ "=" ++ v ++ ";" ++ maxAgeFragment ma ++ secureFragment se ++ pathFragment pa)]) ∧
    (ma = none → maxAgeFragment ma = "") ∧
    (se = none → secureFragment se = "") ∧
    (pa = none → pathFragment pa = "") ∧
    (addCookie hs ⟨n, v, none, none, none⟩ =
       hs ++ [("Set-Cookie", n ++ "=" ++ v ++ ";")]) := by
  refine ⟨?_, ?_, ?_, ?_, ?_⟩
  · cases ma <;> cases se <;> cases pa <;>
      simp [addCookie, cookieValue, maxAgeFragment, secureFragment, pathFragment,
        truthyNum, truthyBool, truthyStr, String.append_assoc]
  · intro h; subst h; rfl
  · intro h; subst h; rfl
  · intro h; subst h; rfl
  · simp [addCookie, cookieValue, truthyNum, truthyBool, truthyStr]

/-- Witness for C8: concrete evaluation with all optional fields absent. -/
theorem claim_C8_addCookie_format_witness :
    addCookie [] ⟨"token", "abc", none, none, none⟩ = [("Set-Cookie", "token=abc;")] ∧
    maxAgeFragment none = "" :=
  ⟨(claim_C8_addCookie_format [] "token" "abc" none none none).2.2.2.2,
   (claim_C8_addCookie_format [] "token" "abc" none none none).2.1 rfl⟩

/-- C9: present-but-falsy optional fields (maxAge = 0, secure = false,
path = "") are tested for truthiness and contribute no fragment. -/
theorem claim_C9_addCookie_falsy_fields (hs : List (String × String)) (n v : String) :
    addCookie hs ⟨n, v, some 0, some false, some ""⟩ =
      hs ++ [("Set-Cookie", n ++ "=" ++ v ++ ";")] ∧
    addCookie hs ⟨n, v, some 0, none, none⟩ =
      hs ++ [("Set-Cookie", n ++ "=" ++ v ++ ";")] ∧
    addCookie hs ⟨n, v, none, some false, none⟩ =
      hs ++ [("Set-Cookie", n ++ "=" ++ v ++ ";")] ∧
    addCookie hs ⟨n, v, none, none, some ""⟩ =
      hs ++ [("Set-Cookie", n ++ "=" ++ v ++ ";")] := by
  refine ⟨?_, ?_, ?_, ?_⟩ <;>
    simp [addCookie, cookieValue, truthyNum, truthyBool, truthyStr]

end Replikas
